import Mathlib

/-!
Verification development for a from-scratch Transformer implementation
(notebook `PyTorch_TransformerScratch.ipynb`).

The notebook's tensor programs are shallowly embedded: a tensor is a record
of its shape together with a total index function into `ℝ` (token-id tensors
map into `ℕ`); each `nn.Module` becomes a structure holding its parameters,
its `__init__` becomes an `Except`-returning constructor (so that the
`assert` and Python's `//`-by-zero are visible), and its `forward` becomes a
function on tensors.  Dropout receives an explicit uniform-noise source, so
that statements about its stochastic behaviour are expressible.
-/

/-- Tensor of token ids, shape `(d0, d1)` (row-major, values are ids). -/
structure Tensor2I where
  d0 : Nat
  d1 : Nat
  val : Nat → Nat → Nat

/-- Real tensor of rank 3, shape `(d0, d1, d2)`. -/
structure Tensor3R where
  d0 : Nat
  d1 : Nat
  d2 : Nat
  val : Nat → Nat → Nat → ℝ

/-- Real tensor of rank 4, shape `(d0, d1, d2, d3)`. -/
structure Tensor4R where
  d0 : Nat
  d1 : Nat
  d2 : Nat
  d3 : Nat
  val : Nat → Nat → Nat → Nat → ℝ

/-- Pointwise addition of equally-shaped rank-3 tensors (`a + b` in torch);
the result carries the left operand's shape. -/
def Tensor3R.add (x y : Tensor3R) : Tensor3R :=
  ⟨x.d0, x.d1, x.d2, fun n t e => x.val n t e + y.val n t e⟩

/-- Broadcast indexing of a rank-4 mask tensor against a rank-4 coordinate,
PyTorch style: axes of extent 1 are repeated. -/
def maskAt (m : Tensor4R) (n h q k : Nat) : ℝ :=
  m.val (if m.d0 = 1 then 0 else n) (if m.d1 = 1 then 0 else h)
    (if m.d2 = 1 then 0 else q) (if m.d3 = 1 then 0 else k)

/-- Parameters of an `nn.Linear(in_features, out_features)` layer:
`weight o i` is entry `(o, i)` of the weight matrix, `bias o` the bias. -/
structure Linear where
  in_features : Nat
  out_features : Nat
  weight : Nat → Nat → ℝ
  bias : Nat → ℝ

/-- Batched application of a linear layer to the last axis of a rank-3
tensor, `y = x Wᵀ + b` as in torch. -/
def Linear.apply3 (l : Linear) (x : Tensor3R) : Tensor3R :=
  ⟨x.d0, x.d1, l.out_features, fun n t o =>
    (∑ i in Finset.range l.in_features, l.weight o i * x.val n t i) + l.bias o⟩

/-- Parameters of an `nn.Embedding(num_embeddings, dim)` table. -/
structure Embedding where
  num_embeddings : Nat
  dim : Nat
  table : Nat → Nat → ℝ

/-- Parameters of an `nn.LayerNorm(dim)` layer. -/
structure LayerNorm where
  dim : Nat
  gamma : Nat → ℝ
  beta : Nat → ℝ

/-- Layer normalization over the embedding (last) axis of a rank-3 tensor:
biased mean/variance over `dim` entries, `eps = 1e-5`, learned affine. -/
noncomputable def LayerNorm.apply3 (ln : LayerNorm) (x : Tensor3R) : Tensor3R :=
  ⟨x.d0, x.d1, x.d2, fun n t e =>
    let mu := (∑ i in Finset.range ln.dim, x.val n t i) / (ln.dim : ℝ)
    let var := (∑ i in Finset.range ln.dim, (x.val n t i - mu) ^ 2) / (ln.dim : ℝ)
    ln.gamma e * ((x.val n t e - mu) / Real.sqrt (var + 1 / 100000)) + ln.beta e⟩

/-- Elementwise `ReLU`. -/
def relu3 (x : Tensor3R) : Tensor3R :=
  ⟨x.d0, x.d1, x.d2, fun n t e => max (x.val n t e) 0⟩

/-- Inverted dropout with keep probability `1 - p`, driven by a source `u` of
uniform `[0,1)` draws (one per activation): in training mode an activation is
kept and rescaled by `1/(1-p)` when its draw is below `1 - p`, else zeroed;
in eval mode it is the identity. -/
noncomputable def dropout3 (p : ℝ) (training : Bool) (u : Nat → Nat → Nat → ℝ)
    (x : Tensor3R) : Tensor3R :=
  ⟨x.d0, x.d1, x.d2, fun n t e =>
    if training then
      (if u n t e < 1 - p then x.val n t e / (1 - p) else 0)
    else x.val n t e⟩

/-- A noise source is valid when every draw lies in `[0, 1)`. -/
def ValidNoise (u : Nat → Nat → Nat → ℝ) : Prop :=
  ∀ n t e, 0 ≤ u n t e ∧ u n t e < 1

/-- A family of noise sources, indexed by dropout site. -/
def ValidNoise4 (w : Nat → Nat → Nat → Nat → ℝ) : Prop :=
  ∀ s, ValidNoise (w s)

/-- Runtime errors raised by the Python constructors that the embedding
models: `ZeroDivisionError` from `//`, and a failed `assert`. -/
inductive PyErr where
  | zeroDivision : PyErr
  | assertionFailed : String → PyErr
deriving DecidableEq

/-- Python integer floor division `a // b`, which raises
`ZeroDivisionError` when `b = 0`. -/
def floordiv (a b : Nat) : Except PyErr Nat :=
  if b = 0 then .error .zeroDivision else .ok (a / b)

/-- Weight and bias initial values for one linear layer. -/
structure LinearParams where
  w : Nat → Nat → ℝ
  b : Nat → ℝ

/-- Initial values for one layer-norm layer. -/
structure NormParams where
  g : Nat → ℝ
  b : Nat → ℝ

/-- Initial parameter values for the four linear layers of `SelfAttention`
(the notebook draws them randomly; the embedding takes them as inputs). -/
structure SAParams where
  values : LinearParams
  keys : LinearParams
  queries : LinearParams
  fc_out : LinearParams

/-- State of a constructed `SelfAttention` module. -/
structure SelfAttention where
  embed_size : Nat
  heads : Nat
  head_dim : Nat
  values : Linear
  keys : Linear
  queries : Linear
  fc_out : Linear

/-- The body of `SelfAttention.__init__(embed_size, heads)`: first
`head_dim = embed_size // heads` (a `ZeroDivisionError` when `heads = 0`),
then `assert head_dim * heads == embed_size`, then four
`nn.Linear(embed_size, embed_size)` layers. -/
def SelfAttention.init (embed_size heads : Nat) (p : SAParams) :
    Except PyErr SelfAttention :=
  match floordiv embed_size heads with
  | .error e => .error e
  | .ok head_dim =>
    if head_dim * heads = embed_size then
      .ok ⟨embed_size, heads, head_dim,
        ⟨embed_size, embed_size, p.values.w, p.values.b⟩,
        ⟨embed_size, embed_size, p.keys.w, p.keys.b⟩,
        ⟨embed_size, embed_size, p.queries.w, p.queries.b⟩,
        ⟨embed_size, embed_size, p.fc_out.w, p.fc_out.b⟩⟩
    else
      .error (.assertionFailed "Embedding size needs to be divisible by heads")

/-- Softmax over the index range `{0, ..., len - 1}` (the mathematical
content of `torch.softmax(·, dim = last)` applied along an axis of extent
`len`), evaluated at position `k`. -/
noncomputable def softmaxKey (len : Nat) (f : Nat → ℝ) (k : Nat) : ℝ :=
  Real.exp (f k) / ∑ j in Finset.range len, Real.exp (f j)

/-- Raw attention energy `torch.einsum("nqhd,nkhd->nhqk", [queries, keys])`
computed on the per-head reshapes of the projected queries and keys; the
reshape `(N, len, heads, head_dim)` of a row-major `(N, len, embed)` tensor
reads head `h`, coordinate `d` from flat position `h * head_dim + d`. -/
noncomputable def SelfAttention.energy (sa : SelfAttention)
    (keys query : Tensor3R) (n h q k : Nat) : ℝ :=
  ∑ d in Finset.range sa.head_dim,
    (sa.queries.apply3 query).val n q (h * sa.head_dim + d) *
      (sa.keys.apply3 keys).val n k (h * sa.head_dim + d)

/-- Energy after the optional
`energy.masked_fill(mask == 0, float("-1e20"))`. -/
noncomputable def SelfAttention.energyMasked (sa : SelfAttention)
    (keys query : Tensor3R) (mask : Option Tensor4R) (n h q k : Nat) : ℝ :=
  match mask with
  | some m =>
      if maskAt m n h q k = 0 then -(10 ^ 20 : ℝ)
      else sa.energy keys query n h q k
  | none => sa.energy keys query n h q k

/-- Attention probabilities
`torch.softmax(energy / (embed_size ** (1 / 2)), dim = 3)`: softmax over the
key axis (extent `key_len = keys.shape[1]`) of the masked energy scaled by
`1 / sqrt(embed_size)`. -/
noncomputable def SelfAttention.attention (sa : SelfAttention)
    (keys query : Tensor3R) (mask : Option Tensor4R) (n h q k : Nat) : ℝ :=
  softmaxKey keys.d1
    (fun j => sa.energyMasked keys query mask n h q j / Real.sqrt sa.embed_size) k

/-- The body of `SelfAttention.forward(values, keys, query, mask)`:
project, reshape per head, form energies, mask, softmax, contract with the
values (`torch.einsum("nhql,nlhd->nqhd", ...)`, summing over the value
positions), reshape back to `(N, query_len, heads * head_dim)` and apply
`fc_out`. -/
noncomputable def SelfAttention.forward (sa : SelfAttention)
    (values keys query : Tensor3R) (mask : Option Tensor4R) : Tensor3R :=
  sa.fc_out.apply3
    ⟨query.d0, query.d1, sa.heads * sa.head_dim, fun n q e =>
      ∑ l in Finset.range values.d1,
        sa.attention keys query mask n (e / sa.head_dim) q l *
          (sa.values.apply3 values).val n l
            (e / sa.head_dim * sa.head_dim + e % sa.head_dim)⟩

/-- Initial parameter values for one `TransformerBlock`. -/
structure TBParams where
  sa : SAParams
  n1 : NormParams
  n2 : NormParams
  ff1 : LinearParams
  ff2 : LinearParams

/-- State of a constructed `TransformerBlock` module. -/
structure TransformerBlock where
  attention : SelfAttention
  norm1 : LayerNorm
  norm2 : LayerNorm
  ff1 : Linear
  ff2 : Linear
  p : ℝ

/-- The body of
`TransformerBlock.__init__(embed_size, heads, dropout, forward_expansion)`:
an inner `SelfAttention(embed_size, heads)` (whose assert can fail), two
`nn.LayerNorm(embed_size)`, the feed-forward pair
`nn.Linear(embed_size, forward_expansion * embed_size)` /
`nn.Linear(forward_expansion * embed_size, embed_size)` and
`nn.Dropout(dropout)`. -/
def TransformerBlock.init (embed_size heads : Nat) (dropout : ℝ)
    (forward_expansion : Nat) (p : TBParams) : Except PyErr TransformerBlock :=
  match SelfAttention.init embed_size heads p.sa with
  | .error e => .error e
  | .ok sa =>
    .ok ⟨sa,
      ⟨embed_size, p.n1.g, p.n1.b⟩,
      ⟨embed_size, p.n2.g, p.n2.b⟩,
      ⟨embed_size, forward_expansion * embed_size, p.ff1.w, p.ff1.b⟩,
      ⟨forward_expansion * embed_size, embed_size, p.ff2.w, p.ff2.b⟩,
      dropout⟩

/-- The body of `TransformerBlock.forward(value, key, query, mask)`:
attention, first residual and norm, dropout, feed-forward
(`Linear`, `ReLU`, `Linear`), second residual and norm, dropout.
Sites `u1` and `u2` supply the noise of the two dropout applications. -/
noncomputable def TransformerBlock.forward (tb : TransformerBlock)
    (training : Bool) (u1 u2 : Nat → Nat → Nat → ℝ)
    (value key query : Tensor3R) (mask : Option Tensor4R) : Tensor3R :=
  let attention := tb.attention.forward value key query mask
  let x := dropout3 tb.p training u1 (tb.norm1.apply3 (attention.add query))
  let fwd := tb.ff2.apply3 (relu3 (tb.ff1.apply3 x))
  dropout3 tb.p training u2 (tb.norm2.apply3 (fwd.add x))

/-- State of a constructed `Encoder` module (the stored `device` is an
execution-placement concern and is not modelled). -/
structure Encoder where
  embed_size : Nat
  word_embedding : Embedding
  position_embedding : Embedding
  layers : List TransformerBlock
  p : ℝ

/-- Sequential application of the encoder blocks
(`for layer in self.layers: out = layer(out, out, out, mask)`); each block
consumes noise sites `w 0` and `w 1` and passes the rest on. -/
noncomputable def runEncLayers (training : Bool) (mask : Option Tensor4R) :
    List TransformerBlock → (Nat → Nat → Nat → Nat → ℝ) → Tensor3R → Tensor3R
  | [], _, out => out
  | tb :: rest, w, out =>
      runEncLayers training mask rest (fun s => w (s + 2))
        (tb.forward training (w 0) (w 1) out out out mask)

/-- The body of `Encoder.forward(x, mask)`: summed word and position
embeddings (position index `t` at sequence slot `t`), dropout (noise site
`w 0`), then the block stack. -/
noncomputable def Encoder.forward (enc : Encoder) (training : Bool)
    (w : Nat → Nat → Nat → Nat → ℝ) (x : Tensor2I) (mask : Option Tensor4R) :
    Tensor3R :=
  let emb : Tensor3R := ⟨x.d0, x.d1, enc.word_embedding.dim, fun n t e =>
    enc.word_embedding.table (x.val n t) e + enc.position_embedding.table t e⟩
  runEncLayers training mask enc.layers (fun s => w (s + 1))
    (dropout3 enc.p training (w 0) emb)

/-- Initial parameter values for one `DecoderBlock`. -/
structure DecBlockParams where
  norm : NormParams
  sa : SAParams
  tb : TBParams

/-- State of a constructed `DecoderBlock` module. -/
structure DecoderBlock where
  norm : LayerNorm
  attention : SelfAttention
  transformer_block : TransformerBlock
  p : ℝ

/-- The body of
`DecoderBlock.__init__(embed_size, heads, forward_expansion, dropout, device)`. -/
def DecoderBlock.init (embed_size heads forward_expansion : Nat) (dropout : ℝ)
    (p : DecBlockParams) : Except PyErr DecoderBlock :=
  match SelfAttention.init embed_size heads p.sa with
  | .error e => .error e
  | .ok sa =>
    match TransformerBlock.init embed_size heads dropout forward_expansion p.tb with
    | .error e => .error e
    | .ok tb => .ok ⟨⟨embed_size, p.norm.g, p.norm.b⟩, sa, tb, dropout⟩

/-- The body of `DecoderBlock.forward(x, value, key, src_mask, trg_mask)`:
masked self-attention on `x`, residual and norm, dropout (noise site `w 0`),
then the transformer block on `(value, key, query, src_mask)` (noise sites
`w 1`, `w 2`). -/
noncomputable def DecoderBlock.forward (db : DecoderBlock) (training : Bool)
    (w : Nat → Nat → Nat → Nat → ℝ) (x value key : Tensor3R)
    (src_mask trg_mask : Option Tensor4R) : Tensor3R :=
  let attention := db.attention.forward x x x trg_mask
  let query := dropout3 db.p training (w 0) (db.norm.apply3 (attention.add x))
  db.transformer_block.forward training (w 1) (w 2) value key query src_mask

/-- Initial parameter values for a `Decoder`. -/
structure DecParams where
  word : Nat → Nat → ℝ
  pos : Nat → Nat → ℝ
  blocks : Nat → DecBlockParams
  fc_out : LinearParams

/-- State of a constructed `Decoder` module. -/
structure Decoder where
  word_embedding : Embedding
  position_embedding : Embedding
  layers : List DecoderBlock
  fc_out : Linear
  p : ℝ

/-- Construction of the decoder blocks
(`for _ in range(num_layers)` in `Decoder.__init__`). -/
def initDecBlocks (embed_size heads forward_expansion : Nat) (dropout : ℝ) :
    List DecBlockParams → Except PyErr (List DecoderBlock)
  | [] => .ok []
  | p :: rest =>
    match DecoderBlock.init embed_size heads forward_expansion dropout p with
    | .error e => .error e
    | .ok db =>
      match initDecBlocks embed_size heads forward_expansion dropout rest with
      | .error e => .error e
      | .ok dbs => .ok (db :: dbs)

/-- The body of `Decoder.__init__(trg_vocab_size, embed_size, num_layers,
heads, forward_expansion, dropout, device, max_length)`: word embedding
`nn.Embedding(trg_vocab_size, embed_size)`, position embedding
`nn.Embedding(max_length, embed_size)`, `num_layers` decoder blocks, and the
output projection `nn.Linear(embed_size, trg_vocab_size)`. -/
def Decoder.init (trg_vocab_size embed_size num_layers heads
    forward_expansion : Nat) (dropout : ℝ) (max_length : Nat) (p : DecParams) :
    Except PyErr Decoder :=
  match initDecBlocks embed_size heads forward_expansion dropout
      ((List.range num_layers).map p.blocks) with
  | .error e => .error e
  | .ok blocks =>
    .ok ⟨⟨trg_vocab_size, embed_size, p.word⟩,
      ⟨max_length, embed_size, p.pos⟩,
      blocks,
      ⟨embed_size, trg_vocab_size, p.fc_out.w, p.fc_out.b⟩,
      dropout⟩

/-- Sequential application of the decoder blocks
(`for layer in self.layers: x = layer(x, enc_out, enc_out, src_mask,
trg_mask)`); each block consumes three noise sites. -/
noncomputable def runDecLayers (training : Bool)
    (src_mask trg_mask : Option Tensor4R) (enc_out : Tensor3R) :
    List DecoderBlock → (Nat → Nat → Nat → Nat → ℝ) → Tensor3R → Tensor3R
  | [], _, x => x
  | db :: rest, w, x =>
      runDecLayers training src_mask trg_mask enc_out rest (fun s => w (s + 3))
        (db.forward training w x enc_out enc_out src_mask trg_mask)

/-- The body of `Decoder.forward(x, enc_out, src_mask, trg_mask)`: summed
word and position embeddings, dropout (noise site `w 0`), the block stack,
and finally `self.fc_out` — no softmax or other activation afterwards. -/
noncomputable def Decoder.forward (dec : Decoder) (training : Bool)
    (w : Nat → Nat → Nat → Nat → ℝ) (x : Tensor2I) (enc_out : Tensor3R)
    (src_mask trg_mask : Option Tensor4R) : Tensor3R :=
  let emb : Tensor3R := ⟨x.d0, x.d1, dec.word_embedding.dim, fun n t e =>
    dec.word_embedding.table (x.val n t) e + dec.position_embedding.table t e⟩
  dec.fc_out.apply3
    (runDecLayers training src_mask trg_mask enc_out dec.layers
      (fun s => w (s + 1)) (dropout3 dec.p training (w 0) emb))

/-- State of a constructed `Transformer` module. -/
structure Transformer where
  encoder : Encoder
  decoder : Decoder
  src_pad_idx : Nat
  trg_pad_idx : Nat

/-- The body of `Transformer.make_src_mask(src)`:
`(src != self.src_pad_idx).unsqueeze(1).unsqueeze(2)`, of shape
`(N, 1, 1, src_len)` (`True`/`1` where the token is not padding). -/
def Transformer.make_src_mask (tf : Transformer) (src : Tensor2I) : Tensor4R :=
  ⟨src.d0, 1, 1, src.d1, fun n _ _ k =>
    if src.val n k = tf.src_pad_idx then 0 else 1⟩

/-- The body of `Transformer.make_trg_mask(trg)`:
`torch.tril(torch.ones((trg_len, trg_len))).expand(N, 1, trg_len, trg_len)`
for `N, trg_len = trg.shape` — the lower-triangular all-ones matrix
broadcast over batch and head axes.  Only the shape of `trg` is read. -/
def Transformer.make_trg_mask (tf : Transformer) (trg : Tensor2I) : Tensor4R :=
  ⟨trg.d0, 1, trg.d1, trg.d1, fun _ _ q k => if k ≤ q then 1 else 0⟩

/-- The body of `Transformer.forward(src, trg)`: build both masks, run the
encoder on `src` with the source mask, then the decoder on `trg` with the
encoder output, the source mask and the target mask.  `we` and `wd` are the
noise families of the encoder and decoder dropout sites. -/
noncomputable def Transformer.forward (tf : Transformer) (training : Bool)
    (we wd : Nat → Nat → Nat → Nat → ℝ) (src trg : Tensor2I) : Tensor3R :=
  let src_mask := tf.make_src_mask src
  let trg_mask := tf.make_trg_mask trg
  let enc_src := tf.encoder.forward training we src (some src_mask)
  tf.decoder.forward training wd trg enc_src (some src_mask) (some trg_mask)

/-- Every dropout layer reachable from `Transformer.forward` has drop
probability `0` (the notebook's default `dropout = 0`). -/
def AllDropZero (tf : Transformer) : Prop :=
  tf.encoder.p = 0 ∧ (∀ tb ∈ tf.encoder.layers, tb.p = 0) ∧
    tf.decoder.p = 0 ∧
    (∀ db ∈ tf.decoder.layers, db.p = 0 ∧ db.transformer_block.p = 0)

/-- Zero initial values for a linear layer (concrete test fixture). -/
def zeroLP : LinearParams := ⟨fun _ _ => 0, fun _ => 0⟩

/-- Unit-scale, zero-shift initial values for a layer norm (torch default). -/
def zeroNP : NormParams := ⟨fun _ => 1, fun _ => 0⟩

/-- Zero initial values for a `SelfAttention` module. -/
def zeroSAP : SAParams := ⟨zeroLP, zeroLP, zeroLP, zeroLP⟩

/-- Zero initial values for a `TransformerBlock`. -/
def zeroTBP : TBParams := ⟨zeroSAP, zeroNP, zeroNP, zeroLP, zeroLP⟩

/-- Zero initial values for a `DecoderBlock`. -/
def zeroDBP : DecBlockParams := ⟨zeroNP, zeroSAP, zeroTBP⟩

/-- Zero initial values for a `Decoder`. -/
def zeroDecP : DecParams := ⟨fun _ _ => 0, fun _ _ => 0, fun _ => zeroDBP, zeroLP⟩

/-- Concrete zero 4-to-4 linear layer. -/
def zl4 : Linear := ⟨4, 4, fun _ _ => 0, fun _ => 0⟩

/-- Concrete `SelfAttention` with `embed_size = 4`, `heads = 2`,
`head_dim = 2` and zero weights (the value of
`SelfAttention.init 4 2 zeroSAP`). -/
def saC1 : SelfAttention := ⟨4, 2, 2, zl4, zl4, zl4, zl4⟩

/-- Concrete rank-3 zero tensor of shape `(1, 2, 4)`. -/
def keysC1 : Tensor3R := ⟨1, 2, 4, fun _ _ _ => 0⟩

/-- Concrete rank-3 zero tensor of shape `(1, 5, 4)` (query length 5,
deliberately different from the key length 2). -/
def queryC3 : Tensor3R := ⟨1, 5, 4, fun _ _ _ => 0⟩

/-- Concrete all-zero mask of shape `(1, 1, 1, 2)`: every key position of a
length-2 key axis is masked out. -/
def maskAll0 : Tensor4R := ⟨1, 1, 1, 2, fun _ _ _ _ => 0⟩

/-- Concrete mask of shape `(1, 1, 1, 2)` masking exactly key position 0. -/
def mW : Tensor4R := ⟨1, 1, 1, 2, fun _ _ _ k => if k = 0 then 0 else 1⟩

/-- Concrete zero 1-to-1 linear layer. -/
def zl1 : Linear := ⟨1, 1, fun _ _ => 0, fun _ => 0⟩

/-- Concrete `SelfAttention` with `embed_size = heads = head_dim = 1` and
zero weights (the value of `SelfAttention.init 1 1 zeroSAP`). -/
def saW1 : SelfAttention := ⟨1, 1, 1, zl1, zl1, zl1, zl1⟩

/-- Concrete layer norm of dimension 1 with default affine parameters. -/
def lnW1 : LayerNorm := ⟨1, fun _ => 1, fun _ => 0⟩

/-- Concrete `TransformerBlock` with `embed_size = 1`, dropout 0 (the value
of `TransformerBlock.init 1 1 0 1 zeroTBP`). -/
def tbW1 : TransformerBlock := ⟨saW1, lnW1, lnW1, zl1, zl1, 0⟩

/-- Concrete embedding table fixture. -/
def embW : Embedding := ⟨4, 1, fun _ _ => 0⟩

/-- Concrete encoder with no layers and dropout 0. -/
def encW : Encoder := ⟨1, embW, embW, [], 0⟩

/-- Concrete decoder with no layers and dropout 0 (the value of
`Decoder.init 4 1 0 1 1 0 4 zeroDecP`). -/
def decW : Decoder := ⟨⟨4, 1, fun _ _ => 0⟩, ⟨4, 1, fun _ _ => 0⟩, [],
  ⟨1, 4, fun _ _ => 0, fun _ => 0⟩, 0⟩

/-- Concrete transformer with padding id 0 on both sides. -/
def tfW : Transformer := ⟨encW, decW, 0, 0⟩

/-- Concrete target token tensor of shape `(1, 3)` that is all padding. -/
def trgPad : Tensor2I := ⟨1, 3, fun _ _ => 0⟩

/-- Concrete target token tensor of shape `(1, 3)` with no padding. -/
def trgTok : Tensor2I := ⟨1, 3, fun _ t => t + 1⟩

/-- Concrete rank-3 zero tensor of shape `(1, 3, 4)`. -/
def xC5 : Tensor3R := ⟨1, 3, 4, fun _ _ _ => 0⟩

/-- Concrete zero rank-3 tensor of shape `(1, 1, 1)`. -/
def xW1 : Tensor3R := ⟨1, 1, 1, fun _ _ _ => 0⟩

/-- Concrete zero single-site noise source. -/
def noiseZero : Nat → Nat → Nat → ℝ := fun _ _ _ => 0

/-- Concrete zero noise family. -/
def noise4Zero : Nat → Nat → Nat → Nat → ℝ := fun _ _ _ _ => 0

/-- Concrete zero rank-3 tensor of shape `(1, 3, 1)` (encoder memory
fixture). -/
def encOutW : Tensor3R := ⟨1, 3, 1, fun _ _ _ => 0⟩

/-- Dropout with drop probability 0 and a valid noise source is the
identity, in training mode and in eval mode alike. -/
theorem dropout3_id {p : ℝ} (hp : p = 0) {u : Nat → Nat → Nat → ℝ}
    (hu : ValidNoise u) (training : Bool) (x : Tensor3R) :
    dropout3 p training u x = x := by
  unfold dropout3
  cases x with
  | mk a b c v =>
    simp only [Tensor3R.mk.injEq, true_and]
    funext n t e
    cases training with
    | false => rfl
    | true => simp [hp, (hu n t e).2]

/-- A successful `SelfAttention.init` records the requested sizes, and its
output projection is an `embed_size → embed_size` linear layer. -/
theorem selfAttention_init_fields {embed heads : Nat} {p : SAParams}
    {sa : SelfAttention} (h : SelfAttention.init embed heads p = .ok sa) :
    sa.embed_size = embed ∧ sa.heads = heads ∧
      sa.head_dim * sa.heads = embed ∧
      sa.fc_out.in_features = embed ∧ sa.fc_out.out_features = embed := by
  unfold SelfAttention.init at h
  split at h
  · exact absurd h (by simp)
  · split at h
    · injection h with h2
      subst h2
      rename_i hcond
      exact ⟨rfl, rfl, hcond, rfl, rfl⟩
    · exact absurd h (by simp)

/-- A successful `TransformerBlock.init` has the requested dropout
probability and the `embed → fe * embed → embed` feed-forward pair. -/
theorem transformerBlock_init_fields {embed heads : Nat} {drop : ℝ} {fe : Nat}
    {p : TBParams} {tb : TransformerBlock}
    (h : TransformerBlock.init embed heads drop fe p = .ok tb) :
    tb.p = drop ∧ tb.ff1.in_features = embed ∧
      tb.ff1.out_features = fe * embed ∧ tb.ff2.in_features = fe * embed ∧
      tb.ff2.out_features = embed ∧ tb.norm1.dim = embed ∧
      tb.norm2.dim = embed ∧
      SelfAttention.init embed heads p.sa = .ok tb.attention := by
  unfold TransformerBlock.init at h
  split at h
  · exact absurd h (by simp)
  · rename_i sa hsa
    injection h with h2
    subst h2
    exact ⟨rfl, rfl, rfl, rfl, rfl, rfl, rfl, hsa⟩

/-- A successful `Decoder.init` ends in an `embed_size → trg_vocab_size`
output projection and records the dropout probability and the block list. -/
theorem decoder_init_fields {tv em nl hs fe : Nat} {drop : ℝ} {ml : Nat}
    {p : DecParams} {dec : Decoder}
    (h : Decoder.init tv em nl hs fe drop ml p = .ok dec) :
    dec.fc_out.in_features = em ∧ dec.fc_out.out_features = tv ∧
      dec.p = drop ∧
      initDecBlocks em hs fe drop ((List.range nl).map p.blocks) =
        .ok dec.layers := by
  unfold Decoder.init at h
  split at h
  · exact absurd h (by simp)
  · rename_i blocks hb
    injection h with h2
    subst h2
    exact ⟨rfl, rfl, rfl, hb⟩

/-- C4: construction of a `SelfAttention` mixer succeeds for every
`embed_size` and `heads > 0` with `embed_size % heads = 0`, and fails with
the divisibility assertion error for `embed_size = 10`, `heads = 3`. -/
theorem selfAttention_init_divisible :
    (∀ (e hs : Nat) (p : SAParams), 0 < hs → e % hs = 0 →
      ∃ sa, SelfAttention.init e hs p = .ok sa) ∧
    (∀ p : SAParams, SelfAttention.init 10 3 p =
      .error (.assertionFailed
        "Embedding size needs to be divisible by heads")) := by
  constructor
  · intro e hs p hpos hdvd
    have hne : hs ≠ 0 := Nat.pos_iff_ne_zero.mp hpos
    have hc : e / hs * hs = e :=
      Nat.div_mul_cancel (Nat.dvd_of_mod_eq_zero hdvd)
    refine ⟨⟨e, hs, e / hs, ⟨e, e, p.values.w, p.values.b⟩,
      ⟨e, e, p.keys.w, p.keys.b⟩, ⟨e, e, p.queries.w, p.queries.b⟩,
      ⟨e, e, p.fc_out.w, p.fc_out.b⟩⟩, ?_⟩
    simp [SelfAttention.init, floordiv, hne, hc]
  · intro p
    rfl

/-- Witness for C4 at `embed_size = 8`, `heads = 2` (success) and
`embed_size = 10`, `heads = 3` (assertion failure). -/
theorem selfAttention_init_divisible_witness :
    (∃ sa, SelfAttention.init 8 2 zeroSAP = .ok sa) ∧
    SelfAttention.init 10 3 zeroSAP =
      .error (.assertionFailed
        "Embedding size needs to be divisible by heads") :=
  ⟨selfAttention_init_divisible.1 8 2 zeroSAP (by decide) (by decide),
   selfAttention_init_divisible.2 zeroSAP⟩

/-- C9: constructing `SelfAttention` with `heads = 0` fails with the
division-by-zero error from `head_dim = embed_size // heads`, never with
the divisibility assertion error. -/
theorem selfAttention_init_heads_zero (e : Nat) (p : SAParams) :
    SelfAttention.init e 0 p = .error .zeroDivision ∧
    ∀ msg, SelfAttention.init e 0 p ≠ .error (.assertionFailed msg) := by
  constructor
  · rfl
  · intro msg hmsg
    have h1 : (Except.error PyErr.zeroDivision : Except PyErr SelfAttention) =
        .error (.assertionFailed msg) := hmsg
    have h2 : PyErr.zeroDivision = PyErr.assertionFailed msg :=
      Except.error.inj h1
    exact PyErr.noConfusion h2

/-- C10: `Transformer.make_trg_mask` reads only the shape of the target
tensor, so two targets of equal shape — whatever their token values —
produce identical masks. -/
theorem make_trg_mask_shape_only (tf : Transformer) (t1 t2 : Tensor2I)
    (h0 : t1.d0 = t2.d0) (h1 : t1.d1 = t2.d1) :
    tf.make_trg_mask t1 = tf.make_trg_mask t2 := by
  unfold Transformer.make_trg_mask
  rw [h0, h1]

/-- Witness for C10: an all-padding target and a padding-free target of the
same shape produce the same mask. -/
theorem make_trg_mask_shape_only_witness :
    tfW.make_trg_mask trgPad = tfW.make_trg_mask trgTok :=
  make_trg_mask_shape_only tfW trgPad trgTok rfl rfl

/-- C2: the attention probabilities are the softmax over the key axis of
the masked energy divided by `sqrt embed_size`; since
`embed_size = head_dim * heads`, with at least two heads this scale is
strictly larger than the canonical `sqrt head_dim`. -/
theorem selfAttention_softmax_scaling (sa : SelfAttention)
    (keys query : Tensor3R) (mask : Option Tensor4R) (n h q k : Nat) :
    sa.attention keys query mask n h q k =
      softmaxKey keys.d1
        (fun j => sa.energyMasked keys query mask n h q j /
          Real.sqrt (sa.embed_size : ℝ)) k ∧
    (sa.head_dim * sa.heads = sa.embed_size → 2 ≤ sa.heads →
      1 ≤ sa.head_dim →
      Real.sqrt (sa.head_dim : ℝ) < Real.sqrt (sa.embed_size : ℝ)) := by
  constructor
  · rfl
  · intro hsz hh hd
    have h1 : sa.head_dim < sa.head_dim * 2 := by omega
    have h2 : sa.head_dim * 2 ≤ sa.head_dim * sa.heads :=
      Nat.mul_le_mul_left sa.head_dim hh
    have h3 : sa.head_dim < sa.embed_size := by omega
    have h4 : (sa.head_dim : ℝ) < (sa.embed_size : ℝ) := by exact_mod_cast h3
    exact Real.sqrt_lt_sqrt (by positivity) h4

/-- Witness for C2 at a concrete mixer with `heads = 2`, `head_dim = 2`,
`embed_size = 4`. -/
theorem selfAttention_softmax_scaling_witness :
    saC1.attention keysC1 keysC1 none 0 0 0 0 =
      softmaxKey keysC1.d1
        (fun j => saC1.energyMasked keysC1 keysC1 none 0 0 0 j /
          Real.sqrt (saC1.embed_size : ℝ)) 0 ∧
    Real.sqrt (saC1.head_dim : ℝ) < Real.sqrt (saC1.embed_size : ℝ) :=
  ⟨(selfAttention_softmax_scaling saC1 keysC1 keysC1 none 0 0 0 0).1,
   (selfAttention_softmax_scaling saC1 keysC1 keysC1 none 0 0 0 0).2
     (by decide) (by decide) (by decide)⟩

/-- C3: for a mixer built by a successful `SelfAttention.init` and inputs
of shapes `(batch, value_len, embed)`, `(batch, key_len, embed)`,
`(batch, query_len, embed)` with `value_len = key_len`, the forward output
has shape `(batch, query_len, embed)` — also when `query_len ≠ key_len`. -/
theorem selfAttention_forward_shape (embed heads : Nat) (p : SAParams)
    (sa : SelfAttention) (h : SelfAttention.init embed heads p = .ok sa)
    (values keys query : Tensor3R) (mask : Option Tensor4R)
    (batch value_len key_len query_len : Nat)
    (hv : values.d0 = batch ∧ values.d1 = value_len ∧ values.d2 = embed)
    (hk : keys.d0 = batch ∧ keys.d1 = key_len ∧ keys.d2 = embed)
    (hq : query.d0 = batch ∧ query.d1 = query_len ∧ query.d2 = embed)
    (hvk : value_len = key_len) :
    (sa.forward values keys query mask).d0 = batch ∧
    (sa.forward values keys query mask).d1 = query_len ∧
    (sa.forward values keys query mask).d2 = embed := by
  obtain ⟨he, hh, hsz, hin, hout⟩ := selfAttention_init_fields h
  exact ⟨hq.1, hq.2.1, hout⟩

/-- Witness for C3: concrete mixer from `SelfAttention.init 4 2`, value and
key length 2, query length 5; the output shape is `(1, 5, 4)`. -/
theorem selfAttention_forward_shape_witness :
    (saC1.forward keysC1 keysC1 queryC3 none).d0 = 1 ∧
    (saC1.forward keysC1 keysC1 queryC3 none).d1 = 5 ∧
    (saC1.forward keysC1 keysC1 queryC3 none).d2 = 4 :=
  selfAttention_forward_shape 4 2 zeroSAP saC1 rfl keysC1 keysC1 queryC3
    none 1 2 2 5 ⟨rfl, rfl, rfl⟩ ⟨rfl, rfl, rfl⟩ ⟨rfl, rfl, rfl⟩ rfl

/-- Each softmax output is bounded by the exponential of the gap between
its own logit and any other in-range logit. -/
theorem softmaxKey_le_exp_sub (len : Nat) (f : Nat → ℝ) (k kk : Nat)
    (hkk : kk < len) : softmaxKey len f k ≤ Real.exp (f k - f kk) := by
  have hle : Real.exp (f kk) ≤ ∑ j in Finset.range len, Real.exp (f j) :=
    Finset.single_le_sum (fun j _ => (Real.exp_pos (f j)).le)
      (Finset.mem_range.mpr hkk)
  have h1 : softmaxKey len f k ≤ Real.exp (f k) / Real.exp (f kk) :=
    div_le_div_of_nonneg_left (Real.exp_pos (f k)).le (Real.exp_pos (f kk)) hle
  rw [← Real.exp_sub] at h1
  exact h1

/-- Bounding the exponential of a large negative number via
`x + 1 ≤ exp x`. -/
theorem exp_neg_le_one_div {x : ℝ} (hx : 0 ≤ x) :
    Real.exp (-x) ≤ 1 / (x + 1) := by
  have h := Real.add_one_le_exp x
  have hpos : (0 : ℝ) < x + 1 := by linarith
  rw [Real.exp_neg, inv_eq_one_div]
  exact one_div_le_one_div_of_le hpos h

/-- If logit `k` sits at the masking sentinel `-1e20`, some in-range logit
`kk` is at least `-1e19`, and the scale is `sqrt embed` with
`1 ≤ embed ≤ 10^6`, then the softmax probability at `k` is at most
`10^-16`. -/
theorem masked_softmax_small (len : Nat) (g : Nat → ℝ) (embed : Nat)
    (h1 : 1 ≤ embed) (h2 : embed ≤ 1000000) (k kk : Nat) (hkk : kk < len)
    (hgk : g k = -(10 ^ 20 : ℝ)) (hgkk : -(10 ^ 19 : ℝ) ≤ g kk) :
    softmaxKey len (fun j => g j / Real.sqrt (embed : ℝ)) k ≤
      1 / 10 ^ 16 := by
  have hc1 : (1 : ℝ) ≤ (embed : ℝ) := by exact_mod_cast h1
  have hc2 : (embed : ℝ) ≤ 1000000 := by exact_mod_cast h2
  have hs1 : 1 ≤ Real.sqrt (embed : ℝ) := by
    calc (1 : ℝ) = Real.sqrt 1 := Real.sqrt_one.symm
      _ ≤ Real.sqrt (embed : ℝ) := Real.sqrt_le_sqrt hc1
  have hs0 : 0 < Real.sqrt (embed : ℝ) := lt_of_lt_of_le one_pos hs1
  have hs2 : Real.sqrt (embed : ℝ) ≤ 1000 := by
    calc Real.sqrt (embed : ℝ) ≤ Real.sqrt 1000000 := Real.sqrt_le_sqrt hc2
      _ = 1000 := by
        rw [show (1000000 : ℝ) = 1000 ^ 2 by norm_num]
        exact Real.sqrt_sq (by norm_num)
  have step1 : softmaxKey len (fun j => g j / Real.sqrt (embed : ℝ)) k ≤
      Real.exp (g k / Real.sqrt (embed : ℝ) - g kk / Real.sqrt (embed : ℝ)) :=
    softmaxKey_le_exp_sub len _ k kk hkk
  have hnum : g k - g kk ≤ -(9 * 10 ^ 19 : ℝ) := by rw [hgk]; linarith
  have step2 : g k / Real.sqrt (embed : ℝ) - g kk / Real.sqrt (embed : ℝ) ≤
      -(9 * 10 ^ 16 : ℝ) := by
    rw [div_sub_div_same]
    calc (g k - g kk) / Real.sqrt (embed : ℝ) ≤
        (-(9 * 10 ^ 19 : ℝ)) / Real.sqrt (embed : ℝ) :=
          (div_le_div_right hs0).mpr hnum
      _ ≤ (-(9 * 10 ^ 19 : ℝ)) / 1000 := by
          rw [div_le_div_iff hs0 (by norm_num : (0 : ℝ) < 1000)]
          linarith
      _ = -(9 * 10 ^ 16 : ℝ) := by norm_num
  calc softmaxKey len (fun j => g j / Real.sqrt (embed : ℝ)) k ≤
      Real.exp (g k / Real.sqrt (embed : ℝ) - g kk / Real.sqrt (embed : ℝ)) :=
        step1
    _ ≤ Real.exp (-(9 * 10 ^ 16 : ℝ)) := Real.exp_le_exp.mpr step2
    _ ≤ 1 / ((9 * 10 ^ 16 : ℝ) + 1) := exp_neg_le_one_div (by norm_num)
    _ ≤ 1 / 10 ^ 16 := by norm_num

/-- C1 counterexample: over a key axis of extent 2 with every key position
masked (`mask ≡ 0`), the post-softmax probability at a masked position is
exactly `1/2`, not approximately 0. -/
theorem selfAttention_fully_masked_cex :
    maskAt maskAll0 0 0 0 0 = 0 ∧
    saC1.attention keysC1 keysC1 (some maskAll0) 0 0 0 0 = 1 / 2 ∧
    ¬ saC1.attention keysC1 keysC1 (some maskAll0) 0 0 0 0 ≤
        1 / 10 ^ 16 := by
  have hf : ∀ j, saC1.energyMasked keysC1 keysC1 (some maskAll0) 0 0 0 j =
      -(10 ^ 20 : ℝ) := by
    intro j
    simp [SelfAttention.energyMasked, maskAt, maskAll0]
  have hhalf : saC1.attention keysC1 keysC1 (some maskAll0) 0 0 0 0 =
      1 / 2 := by
    unfold SelfAttention.attention softmaxKey
    rw [show keysC1.d1 = 2 from rfl, Finset.sum_range_succ,
      Finset.sum_range_one]
    simp only [hf]
    rw [div_eq_iff (by positivity)]
    ring
  refine ⟨rfl, hhalf, ?_⟩
  rw [hhalf]
  norm_num

/-- C1 (amended): the energy at a mask-zero coordinate is replaced by the
sentinel `-1e20` before the softmax; and provided the row is not fully
masked — some in-range key position is unmasked with raw energy at least
`-1e19` — and `1 ≤ embed_size ≤ 10^6`, the post-softmax probability at the
masked position is at most `10^-16`. -/
theorem selfAttention_mask_zero_prob (sa : SelfAttention)
    (keys query : Tensor3R) (m : Tensor4R) (n h q k kk : Nat)
    (he1 : 1 ≤ sa.embed_size) (he2 : sa.embed_size ≤ 1000000)
    (hk : k < keys.d1) (hmask : maskAt m n h q k = 0)
    (hkk : kk < keys.d1) (hkkmask : maskAt m n h q kk ≠ 0)
    (hE : -(10 ^ 19 : ℝ) ≤ sa.energy keys query n h q kk) :
    sa.energyMasked keys query (some m) n h q k = -(10 ^ 20 : ℝ) ∧
    sa.attention keys query (some m) n h q k ≤ 1 / 10 ^ 16 := by
  have hg : sa.energyMasked keys query (some m) n h q k =
      -(10 ^ 20 : ℝ) := by
    simp [SelfAttention.energyMasked, hmask]
  refine ⟨hg, ?_⟩
  unfold SelfAttention.attention
  apply masked_softmax_small keys.d1 _ sa.embed_size he1 he2 k kk hkk hg
  simpa [SelfAttention.energyMasked, hkkmask] using hE

/-- Witness for the amended C1: concrete mixer with `embed_size = 4` and
zero weights, key length 2, mask excluding exactly position 0. -/
theorem selfAttention_mask_zero_prob_witness :
    saC1.energyMasked keysC1 keysC1 (some mW) 0 0 0 0 = -(10 ^ 20 : ℝ) ∧
    saC1.attention keysC1 keysC1 (some mW) 0 0 0 0 ≤ 1 / 10 ^ 16 :=
  selfAttention_mask_zero_prob saC1 keysC1 keysC1 mW 0 0 0 0 1
    (by decide) (by decide) (by decide)
    (by norm_num [maskAt, mW]) (by decide)
    (by norm_num [maskAt, mW])
    (by norm_num [SelfAttention.energy, Linear.apply3, saC1, keysC1, zl4])

/-- C5: `make_trg_mask` returns the lower-triangular all-ones matrix of
shape `(trg_len, trg_len)` broadcast to `(batch, 1, trg_len, trg_len)`, and
in self-attention under this mask (key length equal to `trg_len`, diagonal
energy at least `-1e19`, `1 ≤ embed_size ≤ 10^6`) the probability a query
position `i` assigns to a later key position `j > i` is at most `10^-16`. -/
theorem make_trg_mask_causal (tf : Transformer) (trg : Tensor2I)
    (sa : SelfAttention) (x : Tensor3R) (n h i j : Nat)
    (he1 : 1 ≤ sa.embed_size) (he2 : sa.embed_size ≤ 1000000)
    (hx : x.d1 = trg.d1) (hij : i < j) (hj : j < trg.d1)
    (hE : -(10 ^ 19 : ℝ) ≤ sa.energy x x n h i i) :
    (tf.make_trg_mask trg).d0 = trg.d0 ∧
    (tf.make_trg_mask trg).d1 = 1 ∧
    (tf.make_trg_mask trg).d2 = trg.d1 ∧
    (tf.make_trg_mask trg).d3 = trg.d1 ∧
    (∀ q k, (tf.make_trg_mask trg).val n h q k =
      if k ≤ q then 1 else 0) ∧
    sa.attention x x (some (tf.make_trg_mask trg)) n h i j ≤ 1 / 10 ^ 16 := by
  have hd1 : trg.d1 ≠ 1 := by omega
  have hmask0 : maskAt (tf.make_trg_mask trg) n h i j = 0 := by
    simp [maskAt, Transformer.make_trg_mask, hd1, Nat.not_le.mpr hij]
  have hmask1 : maskAt (tf.make_trg_mask trg) n h i i ≠ 0 := by
    simp [maskAt, Transformer.make_trg_mask, hd1]
  refine ⟨rfl, rfl, rfl, rfl, fun q k => rfl, ?_⟩
  have hgj : sa.energyMasked x x (some (tf.make_trg_mask trg)) n h i j =
      -(10 ^ 20 : ℝ) := by
    simp [SelfAttention.energyMasked, hmask0]
  unfold SelfAttention.attention
  apply masked_softmax_small x.d1 _ sa.embed_size he1 he2 j i (by omega) hgj
  simpa [SelfAttention.energyMasked, hmask1] using hE

/-- Witness for C5 with a concrete transformer, a length-3 target, the
concrete zero-weight mixer, query position 0 and key position 1. -/
theorem make_trg_mask_causal_witness :
    (tfW.make_trg_mask trgPad).d0 = trgPad.d0 ∧
    (tfW.make_trg_mask trgPad).d1 = 1 ∧
    (tfW.make_trg_mask trgPad).d2 = trgPad.d1 ∧
    (tfW.make_trg_mask trgPad).d3 = trgPad.d1 ∧
    (∀ q k, (tfW.make_trg_mask trgPad).val 0 0 q k =
      if k ≤ q then 1 else 0) ∧
    saC1.attention xC5 xC5 (some (tfW.make_trg_mask trgPad)) 0 0 0 1 ≤
      1 / 10 ^ 16 :=
  make_trg_mask_causal tfW trgPad saC1 xC5 0 0 0 1
    (by decide) (by decide) rfl (by decide) (by decide)
    (by norm_num [SelfAttention.energy, Linear.apply3, saC1, xC5, zl4])

/-- The attention mixer's output keeps the query's batch and length axes. -/
theorem selfAttention_forward_dims (sa : SelfAttention)
    (v k q : Tensor3R) (m : Option Tensor4R) :
    (sa.forward v k q m).d0 = q.d0 ∧ (sa.forward v k q m).d1 = q.d1 :=
  ⟨rfl, rfl⟩

/-- A transformer block's output keeps the query's batch and length axes. -/
theorem transformerBlock_forward_dims (tb : TransformerBlock)
    (tr : Bool) (u1 u2 : Nat → Nat → Nat → ℝ) (v k q : Tensor3R)
    (m : Option Tensor4R) :
    (tb.forward tr u1 u2 v k q m).d0 = q.d0 ∧
      (tb.forward tr u1 u2 v k q m).d1 = q.d1 := by
  constructor <;>
    simp only [TransformerBlock.forward, SelfAttention.forward, dropout3,
      LayerNorm.apply3, Linear.apply3, relu3, Tensor3R.add]

/-- A decoder block's output keeps the batch and length axes of `x`. -/
theorem decoderBlock_forward_dims (db : DecoderBlock) (tr : Bool)
    (w : Nat → Nat → Nat → Nat → ℝ) (x v k : Tensor3R)
    (sm tm : Option Tensor4R) :
    (db.forward tr w x v k sm tm).d0 = x.d0 ∧
      (db.forward tr w x v k sm tm).d1 = x.d1 := by
  constructor <;>
    simp only [DecoderBlock.forward, TransformerBlock.forward,
      SelfAttention.forward, dropout3, LayerNorm.apply3, Linear.apply3,
      relu3, Tensor3R.add]

/-- The decoder layer stack preserves the batch and length axes of its
running hidden state. -/
theorem runDecLayers_dims (tr : Bool) (sm tm : Option Tensor4R)
    (eo : Tensor3R) (ls : List DecoderBlock) :
    ∀ (w : Nat → Nat → Nat → Nat → ℝ) (x : Tensor3R),
      (runDecLayers tr sm tm eo ls w x).d0 = x.d0 ∧
        (runDecLayers tr sm tm eo ls w x).d1 = x.d1 := by
  induction ls with
  | nil => intro w x; exact ⟨rfl, rfl⟩
  | cons db rest ih =>
    intro w x
    simp only [runDecLayers]
    refine ⟨?_, ?_⟩
    · rw [(ih _ _).1]
      exact (decoderBlock_forward_dims db tr w x eo eo sm tm).1
    · rw [(ih _ _).2]
      exact (decoderBlock_forward_dims db tr w x eo eo sm tm).2

/-- C6: a transformer block built by `TransformerBlock.init` computes, in
order: attention; addition to the original query; first normalization;
dropout; the `Linear`–`ReLU`–`Linear` feed-forward pair (expansion to
`fe * embed` and projection back to `embed`); addition to its own input;
second normalization; dropout — and its output has the query's shape. -/
theorem transformerBlock_forward_spec (embed heads : Nat) (drop : ℝ)
    (fe : Nat) (p : TBParams) (tb : TransformerBlock)
    (h : TransformerBlock.init embed heads drop fe p = .ok tb)
    (training : Bool) (u1 u2 : Nat → Nat → Nat → ℝ)
    (value key query : Tensor3R) (mask : Option Tensor4R)
    (hq2 : query.d2 = embed) :
    tb.forward training u1 u2 value key query mask =
      dropout3 tb.p training u2
        (tb.norm2.apply3
          ((tb.ff2.apply3 (relu3 (tb.ff1.apply3
            (dropout3 tb.p training u1
              (tb.norm1.apply3
                ((tb.attention.forward value key query mask).add
                  query)))))).add
            (dropout3 tb.p training u1
              (tb.norm1.apply3
                ((tb.attention.forward value key query mask).add
                  query))))) ∧
    tb.ff1.in_features = embed ∧ tb.ff1.out_features = fe * embed ∧
    tb.ff2.in_features = fe * embed ∧ tb.ff2.out_features = embed ∧
    (tb.forward training u1 u2 value key query mask).d0 = query.d0 ∧
    (tb.forward training u1 u2 value key query mask).d1 = query.d1 ∧
    (tb.forward training u1 u2 value key query mask).d2 = query.d2 := by
  obtain ⟨hp, h1, h2, h3, h4, h5, h6, h7⟩ := transformerBlock_init_fields h
  refine ⟨?_, h1, h2, h3, h4,
    (transformerBlock_forward_dims tb training u1 u2 value key query mask).1,
    (transformerBlock_forward_dims tb training u1 u2 value key query mask).2,
    ?_⟩
  · simp only [TransformerBlock.forward]
  · simp only [TransformerBlock.forward, SelfAttention.forward, dropout3,
      LayerNorm.apply3, Linear.apply3, relu3, Tensor3R.add]
    rw [h4, hq2]

/-- Witness for C6: the concrete block `TransformerBlock.init 1 1 0 1`,
applied to the zero `(1, 1, 1)` tensor, keeps its shape. -/
theorem transformerBlock_forward_spec_witness :
    (tbW1.forward false noiseZero noiseZero xW1 xW1 xW1 none).d0 = xW1.d0 ∧
    (tbW1.forward false noiseZero noiseZero xW1 xW1 xW1 none).d1 = xW1.d1 ∧
    (tbW1.forward false noiseZero noiseZero xW1 xW1 xW1 none).d2 = xW1.d2 :=
  ⟨(transformerBlock_forward_spec 1 1 0 1 zeroTBP tbW1 rfl false noiseZero
      noiseZero xW1 xW1 xW1 none rfl).2.2.2.2.2.1,
   (transformerBlock_forward_spec 1 1 0 1 zeroTBP tbW1 rfl false noiseZero
      noiseZero xW1 xW1 xW1 none rfl).2.2.2.2.2.2.1,
   (transformerBlock_forward_spec 1 1 0 1 zeroTBP tbW1 rfl false noiseZero
      noiseZero xW1 xW1 xW1 none rfl).2.2.2.2.2.2.2⟩

/-- C7: a decoder built by `Decoder.init` produces its output by exactly
one final `embed → trg_vocab` linear projection applied after the layer
stack, with nothing applied afterwards; on a `(batch, trg_len)` target the
logits have shape `(batch, trg_len, trg_vocab)`, the last axis independent
of `embed`. -/
theorem decoder_forward_logits (tv em nl hs fe : Nat) (drop : ℝ) (ml : Nat)
    (p : DecParams) (dec : Decoder)
    (h : Decoder.init tv em nl hs fe drop ml p = .ok dec)
    (training : Bool) (w : Nat → Nat → Nat → Nat → ℝ) (x : Tensor2I)
    (enc_out : Tensor3R) (sm tm : Option Tensor4R) (batch trg_len : Nat)
    (hx0 : x.d0 = batch) (hx1 : x.d1 = trg_len) :
    dec.forward training w x enc_out sm tm =
      dec.fc_out.apply3
        (runDecLayers training sm tm enc_out dec.layers (fun s => w (s + 1))
          (dropout3 dec.p training (w 0)
            ⟨x.d0, x.d1, dec.word_embedding.dim, fun n t e =>
              dec.word_embedding.table (x.val n t) e +
                dec.position_embedding.table t e⟩)) ∧
    dec.fc_out.in_features = em ∧ dec.fc_out.out_features = tv ∧
    (dec.forward training w x enc_out sm tm).d0 = batch ∧
    (dec.forward training w x enc_out sm tm).d1 = trg_len ∧
    (dec.forward training w x enc_out sm tm).d2 = tv := by
  obtain ⟨hin, hout, hp, hb⟩ := decoder_init_fields h
  have hr := runDecLayers_dims training sm tm enc_out dec.layers
    (fun s => w (s + 1))
    (dropout3 dec.p training (w 0)
      ⟨x.d0, x.d1, dec.word_embedding.dim, fun n t e =>
        dec.word_embedding.table (x.val n t) e +
          dec.position_embedding.table t e⟩)
  refine ⟨rfl, hin, hout, ?_, ?_, ?_⟩
  · show (runDecLayers training sm tm enc_out dec.layers _ _).d0 = batch
    rw [hr.1]
    exact hx0
  · show (runDecLayers training sm tm enc_out dec.layers _ _).d1 = trg_len
    rw [hr.2]
    exact hx1
  · exact hout

/-- Witness for C7: the concrete decoder `Decoder.init 4 1 0 1 1 0 4`
applied to a `(1, 3)` target yields logits of shape `(1, 3, 4)`. -/
theorem decoder_forward_logits_witness :
    (decW.forward false noise4Zero trgPad encOutW none none).d0 = 1 ∧
    (decW.forward false noise4Zero trgPad encOutW none none).d1 = 3 ∧
    (decW.forward false noise4Zero trgPad encOutW none none).d2 = 4 :=
  ⟨(decoder_forward_logits 4 1 0 1 1 0 4 zeroDecP decW rfl false noise4Zero
      trgPad encOutW none none 1 3 rfl rfl).2.2.2.1,
   (decoder_forward_logits 4 1 0 1 1 0 4 zeroDecP decW rfl false noise4Zero
      trgPad encOutW none none 1 3 rfl rfl).2.2.2.2.1,
   (decoder_forward_logits 4 1 0 1 1 0 4 zeroDecP decW rfl false noise4Zero
      trgPad encOutW none none 1 3 rfl rfl).2.2.2.2.2⟩

/-- With drop probability 0, a transformer block's output does not depend
on the dropout noise. -/
theorem transformerBlock_forward_noise {tb : TransformerBlock}
    (hp : tb.p = 0) (tr : Bool) {u1 u2 u1' u2' : Nat → Nat → Nat → ℝ}
    (h1 : ValidNoise u1) (h2 : ValidNoise u2) (h1' : ValidNoise u1')
    (h2' : ValidNoise u2') (v k q : Tensor3R) (m : Option Tensor4R) :
    tb.forward tr u1 u2 v k q m = tb.forward tr u1' u2' v k q m := by
  simp only [TransformerBlock.forward]
  rw [dropout3_id hp h1, dropout3_id hp h1', dropout3_id hp h2,
    dropout3_id hp h2']

/-- With drop probability 0 at both of its dropout layers, a decoder
block's output does not depend on the dropout noise. -/
theorem decoderBlock_forward_noise {db : DecoderBlock} (hp : db.p = 0)
    (hp2 : db.transformer_block.p = 0) (tr : Bool)
    {w w' : Nat → Nat → Nat → Nat → ℝ} (hw : ValidNoise4 w)
    (hw' : ValidNoise4 w') (x v k : Tensor3R)
    (sm tm : Option Tensor4R) :
    db.forward tr w x v k sm tm = db.forward tr w' x v k sm tm := by
  simp only [DecoderBlock.forward]
  rw [dropout3_id hp (hw 0), dropout3_id hp (hw' 0)]
  exact transformerBlock_forward_noise hp2 tr (hw 1) (hw 2) (hw' 1) (hw' 2)
    v k _ sm

/-- With drop probability 0 in every block, the encoder layer stack does
not depend on the dropout noise. -/
theorem runEncLayers_noise (tr : Bool) (m : Option Tensor4R)
    (ls : List TransformerBlock) (hp : ∀ tb ∈ ls, tb.p = 0) :
    ∀ {w w' : Nat → Nat → Nat → Nat → ℝ}, ValidNoise4 w → ValidNoise4 w' →
      ∀ x, runEncLayers tr m ls w x = runEncLayers tr m ls w' x := by
  induction ls with
  | nil => intro w w' _ _ x; rfl
  | cons tb rest ih =>
    intro w w' hw hw' x
    simp only [runEncLayers]
    rw [transformerBlock_forward_noise (hp tb (List.mem_cons_self _ _)) tr
      (hw 0) (hw 1) (hw' 0) (hw' 1) x x x m]
    exact ih (fun tb2 h2 => hp tb2 (List.mem_cons_of_mem _ h2))
      (fun s => hw (s + 2)) (fun s => hw' (s + 2)) _

/-- With drop probability 0 everywhere, the encoder's output does not
depend on the dropout noise. -/
theorem encoder_forward_noise {enc : Encoder} (hp0 : enc.p = 0)
    (hp : ∀ tb ∈ enc.layers, tb.p = 0) (tr : Bool)
    {w w' : Nat → Nat → Nat → Nat → ℝ} (hw : ValidNoise4 w)
    (hw' : ValidNoise4 w') (x : Tensor2I) (m : Option Tensor4R) :
    enc.forward tr w x m = enc.forward tr w' x m := by
  simp only [Encoder.forward]
  rw [dropout3_id hp0 (hw 0), dropout3_id hp0 (hw' 0)]
  exact runEncLayers_noise tr m enc.layers hp (fun s => hw (s + 1))
    (fun s => hw' (s + 1)) _

/-- With drop probability 0 in every block, the decoder layer stack does
not depend on the dropout noise. -/
theorem runDecLayers_noise (tr : Bool) (sm tm : Option Tensor4R)
    (eo : Tensor3R) (ls : List DecoderBlock)
    (hp : ∀ db ∈ ls, db.p = 0 ∧ db.transformer_block.p = 0) :
    ∀ {w w' : Nat → Nat → Nat → Nat → ℝ}, ValidNoise4 w → ValidNoise4 w' →
      ∀ x, runDecLayers tr sm tm eo ls w x =
        runDecLayers tr sm tm eo ls w' x := by
  induction ls with
  | nil => intro w w' _ _ x; rfl
  | cons db rest ih =>
    intro w w' hw hw' x
    simp only [runDecLayers]
    rw [decoderBlock_forward_noise (hp db (List.mem_cons_self _ _)).1
      (hp db (List.mem_cons_self _ _)).2 tr hw hw' x eo eo sm tm]
    exact ih (fun db2 h2 => hp db2 (List.mem_cons_of_mem _ h2))
      (fun s => hw (s + 3)) (fun s => hw' (s + 3)) _

/-- With drop probability 0 everywhere, the decoder's output does not
depend on the dropout noise. -/
theorem decoder_forward_noise {dec : Decoder} (hp0 : dec.p = 0)
    (hp : ∀ db ∈ dec.layers, db.p = 0 ∧ db.transformer_block.p = 0)
    (tr : Bool) {w w' : Nat → Nat → Nat → Nat → ℝ} (hw : ValidNoise4 w)
    (hw' : ValidNoise4 w') (x : Tensor2I) (eo : Tensor3R)
    (sm tm : Option Tensor4R) :
    dec.forward tr w x eo sm tm = dec.forward tr w' x eo sm tm := by
  simp only [Decoder.forward]
  rw [dropout3_id hp0 (hw 0), dropout3_id hp0 (hw' 0)]
  rw [runDecLayers_noise tr sm tm eo dec.layers hp (fun s => hw (s + 1))
    (fun s => hw' (s + 1)) _]

/-- C8: with every dropout probability 0 and fixed weights,
`Transformer.forward` is deterministic — two forward passes on identical
source and target inputs produce identical outputs, whatever the dropout
noise draws of either pass. -/
theorem transformer_forward_deterministic (tf : Transformer)
    (hz : AllDropZero tf) (training : Bool)
    (we1 wd1 we2 wd2 : Nat → Nat → Nat → Nat → ℝ)
    (h1 : ValidNoise4 we1) (h2 : ValidNoise4 wd1) (h3 : ValidNoise4 we2)
    (h4 : ValidNoise4 wd2) (src trg : Tensor2I) :
    tf.forward training we1 wd1 src trg =
      tf.forward training we2 wd2 src trg := by
  obtain ⟨hep, hebs, hdp, hdbs⟩ := hz
  simp only [Transformer.forward]
  rw [encoder_forward_noise hep hebs training h1 h3 src]
  exact decoder_forward_noise hdp hdbs training h2 h4 trg _ _ _

/-- Witness for C8: the concrete zero-dropout transformer produces the
same output under all-zero noise draws and under all-1/2 noise draws. -/
theorem transformer_forward_deterministic_witness :
    tfW.forward true noise4Zero noise4Zero trgPad trgPad =
      tfW.forward true (fun _ _ _ _ => 1 / 2) (fun _ _ _ _ => 1 / 2)
        trgPad trgPad :=
  transformer_forward_deterministic tfW
    ⟨rfl, by simp [tfW, encW], rfl, by simp [tfW, decW]⟩ true
    noise4Zero noise4Zero (fun _ _ _ _ => 1 / 2) (fun _ _ _ _ => 1 / 2)
    (fun s n t e => ⟨le_refl 0, zero_lt_one⟩)
    (fun s n t e => ⟨le_refl 0, zero_lt_one⟩)
    (fun s n t e => ⟨by norm_num, by norm_num⟩)
    (fun s n t e => ⟨by norm_num, by norm_num⟩)
    trgPad trgPad

/-- Witness for C9 at `embed_size = 7`: the reported failure is the
division-by-zero error, not the assertion error. -/
theorem selfAttention_init_heads_zero_witness :
    SelfAttention.init 7 0 zeroSAP = .error .zeroDivision ∧
    SelfAttention.init 7 0 zeroSAP ≠
      .error (.assertionFailed
        "Embedding size needs to be divisible by heads") :=
  ⟨(selfAttention_init_heads_zero 7 zeroSAP).1,
   (selfAttention_init_heads_zero 7 zeroSAP).2 _⟩
